import Mathlib

/-!
Verification of the Health Monitor repository (PyQt client `client/main.py`,
FastAPI server `server/main.py`) against its natural-language specification.

The client keeps a SQLite table `local_vectors`; `sync_data` reads every row,
posts the batch to `POST /sync/{user_id}/vectors`, and on HTTP 200 runs
`DELETE FROM local_vectors`.  The server stores users and vector rows, with a
bearer-token dependency `verify_token`, routes `/auth/register`, `/users/me`,
and upload/download vector endpoints.  The definitions below are a shallow
embedding of that code: SQLite/SQLAlchemy tables become Lean lists, HTTP
responses become inductive results, and datetimes become naturals/strings.
-/

namespace HealthMonitor

/-! ## Client: local store (client/main.py) -/

/-- One row of the client's SQLite table `local_vectors`
(`setup_local_db`, client/main.py lines 45-71): autoincrement `id`,
`timestamp TEXT NOT NULL`, nullable `heart_rate INTEGER`, nullable
`stress_level REAL` (modelled as `Int`; its value is only stored, never
computed with), and `model_version TEXT DEFAULT 'v1.0'`. -/
structure LocalRecord where
  id : Nat
  timestamp : String
  heart_rate : Option Int
  stress_level : Option Int
  model_version : String
deriving DecidableEq

/-- Column names of the `CREATE TABLE IF NOT EXISTS local_vectors` statement,
in declaration order (client/main.py lines 49-70). -/
def local_vectors_columns : List String :=
  ["id", "timestamp", "heart_rate", "stress_level", "model_version"]

/-- Client-side application state relevant to sync: the rows of
`local_vectors`, the next autoincrement id, and the fields `is_premium` and
`user_id` set by `authenticate`. -/
structure ClientState where
  store : List LocalRecord
  nextId : Nat
  is_premium : Bool
  user_id : Option Nat
deriving DecidableEq

/-- `read_sensors` (client/main.py lines 103-116) inserts one row
`INSERT INTO local_vectors (timestamp, heart_rate, stress_level) VALUES (?,?,?)`;
`id` is assigned by autoincrement and `model_version` takes its column
default `'v1.0'`. -/
def read_sensors (st : ClientState) (ts : String) (hr : Int) (stress : Int) :
    ClientState :=
  { st with
    store := st.store ++
      [{ id := st.nextId, timestamp := ts, heart_rate := some hr,
         stress_level := some stress, model_version := "v1.0" }],
    nextId := st.nextId + 1 }

/-- The serialized shape `vector_data` built in `sync_data`
(client/main.py lines 153-156): each row projected to
`{timestamp, heart_rate, stress_level, model_version}` (the `id` column is
dropped). -/
structure VectorOut where
  timestamp : String
  heart_rate : Option Int
  stress_level : Option Int
  model_version : String
deriving DecidableEq

def toVectorOut (r : LocalRecord) : VectorOut :=
  { timestamp := r.timestamp, heart_rate := r.heart_rate,
    stress_level := r.stress_level, model_version := r.model_version }

/-- Outcome of the `requests.post` issued by `sync_data`: HTTP 200, a non-200
status with its body text, or a raised exception (connection error, timeout). -/
inductive SyncResponse where
  | ok
  | httpError (code : Nat) (text : String)
  | exn (msg : String)
deriving DecidableEq

/-- Which branch of `sync_data` ran to completion. -/
inductive SyncResult where
  | notAuthorized
  | success
  | failed
deriving DecidableEq

/-- Observable effect of one `sync_data` call: the branch taken, the POST
requests issued (target `user_id` and serialized payload), the desktop
notifications shown, and the resulting contents of `local_vectors`. -/
structure SyncOutcome where
  result : SyncResult
  requests : List (Option Nat × List VectorOut)
  notifications : List (String × String)
  store : List LocalRecord
deriving DecidableEq

/-- `sync_data` (client/main.py lines 145-166).  If `is_premium` is false it
notifies "Sync requires Premium account" and returns without touching the
network or the store.  Otherwise it reads the batch
(`SELECT * FROM local_vectors`), posts it, and on status 200 executes
`DELETE FROM local_vectors`; on a non-200 status or an exception it only
shows a notification.  `appended` are rows inserted into `local_vectors`
between the batch read and the response (none in a strictly single-threaded
run); the delete statement removes every row present at deletion time. -/
def sync_data (st : ClientState) (resp : SyncResponse)
    (appended : List LocalRecord) : SyncOutcome :=
  if st.is_premium = false then
    { result := .notAuthorized, requests := [],
      notifications := [("Sync Error", "Sync requires Premium account")],
      store := st.store }
  else
    let payload := st.store.map toVectorOut
    let storeAtResponse := st.store ++ appended
    match resp with
    | .ok =>
        { result := .success, requests := [(st.user_id, payload)],
          notifications := [("Sync Success", "Data synced with server")],
          store := [] }
    | .httpError _ text =>
        { result := .failed, requests := [(st.user_id, payload)],
          notifications := [("Sync Error", "Sync failed: " ++ text)],
          store := storeAtResponse }
    | .exn msg =>
        { result := .failed, requests := [(st.user_id, payload)],
          notifications := [("Sync Error", "Sync failed: " ++ msg)],
          store := storeAtResponse }

/-! ## Server: data model (server/main.py) -/

/-- The request body of `POST /auth/register` (Pydantic `UserCreate`,
server/main.py lines 28-32). -/
structure UserCreate where
  username : String
  email : String
  password : String
  user_type : String
deriving DecidableEq

/-- A row of the SQLAlchemy `users` table (`UserDB`, server/main.py lines
62-69).  `subscription_end` is never written by any route and is omitted. -/
structure UserRow where
  id : Nat
  username : String
  email : String
  hashed_password : String
  user_type : String
deriving DecidableEq

/-- The JSON blob stored in `VectorDB.data`: `vector.dict` with `device_id`
and `timestamp` excluded (server/main.py line 162).  Floats are only stored,
never computed with, and are modelled as `Int`; `model_weights` is an opaque
JSON value modelled as `Option String`. -/
structure VectorPayload where
  heart_rate : Option Int
  hrv : Option Int
  accel_x : Int
  accel_y : Int
  accel_z : Int
  temperature : Option Int
  stress_level : Option Int
  model_weights : Option String
deriving DecidableEq

/-- One element of the upload request body (Pydantic `VectorData`,
server/main.py lines 43-53).  `timestamp` (a datetime) is modelled as `Nat`
ticks. -/
structure VectorData where
  device_id : String
  timestamp : Nat
  heart_rate : Option Int
  hrv : Option Int
  accel_x : Int
  accel_y : Int
  accel_z : Int
  temperature : Option Int
  stress_level : Option Int
  model_weights : Option String
deriving DecidableEq

/-- `vector.dict(exclude={device_id, timestamp})` as used when building a
`VectorDB` row. -/
def vectorDict (v : VectorData) : VectorPayload :=
  { heart_rate := v.heart_rate, hrv := v.hrv, accel_x := v.accel_x,
    accel_y := v.accel_y, accel_z := v.accel_z, temperature := v.temperature,
    stress_level := v.stress_level, model_weights := v.model_weights }

/-- A row of the SQLAlchemy `vectors` table (`VectorDB`, server/main.py lines
72-79): autoincrement primary key `id`, plain `user_id` and `device_id`
columns, `timestamp`, the JSON `data` column, and the nullable column
`model_weights` — which `upload_vectors` never sets (it only puts
`model_weights` inside `data`), so it stays `none`.  The table declares no
unique constraint. -/
structure VectorRow where
  id : Nat
  user_id : Nat
  device_id : String
  timestamp : Nat
  data : VectorPayload
  model_weights : Option String
deriving DecidableEq

/-- The server database: the `users` and `vectors` tables plus their
autoincrement counters. -/
structure ServerDB where
  users : List UserRow
  vectors : List VectorRow
  nextUserId : Nat
  nextVectorId : Nat
deriving DecidableEq

/-! ## Server: authentication -/

/-- A bearer credential as seen by `verify_token`: either it decodes under
the server's secret to a payload whose `sub` claim may be present or absent,
or `jwt.decode` raises `PyJWTError` (wrong signature, malformed token). -/
inductive AuthToken where
  | valid (sub : Option String)
  | invalid
deriving DecidableEq

/-- `verify_token` (server/main.py lines 96-104): returns the token's `sub`
claim, or fails with HTTP 401 when decoding raises or `sub` is missing. -/
def verify_token : AuthToken → Except Nat String
  | .valid (some s) => .ok s
  | .valid none => .error 401
  | .invalid => .error 401

/-- The JWT payload produced by `register`:
`{"sub": username, "type": "access"}` (server/main.py line 126). -/
structure TokenPayload where
  sub : String
  type : String
deriving DecidableEq

/-- The response body of `register`:
`{"access_token": ..., "token_type": "bearer"}`, with the access token
identified with its payload (encoding under the fixed secret is a bijection
external to this code). -/
structure TokenOut where
  payload : TokenPayload
  token_type : String
deriving DecidableEq

/-! ## Server: routes -/

inductive HttpMethod where
  | get
  | post
deriving DecidableEq

/-- Every route registered on the FastAPI app (server/main.py lines 107,
131, 146, 171). -/
def server_routes : List (HttpMethod × String) :=
  [(.post, "/auth/register"), (.get, "/users/me"),
   (.post, "/sync/{user_id}/vectors"), (.get, "/sync/{user_id}/vectors")]

/-- The path targeted by the client's `APIClient.login`
(client/main.py line 186). -/
def client_login_path : String := "/auth/login"

/-! ## Server: register endpoint -/

inductive RegisterResult where
  | err (code : Nat)
  | ok (t : TokenOut)
deriving DecidableEq

/-- `POST /auth/register` (server/main.py lines 107-128).  `hash` stands for
`pwd_context.hash` of the passlib bcrypt context, an external library
function.  The handler first queries for the username and fails with 400
when it exists.  Otherwise it adds one row and commits; the `users.email`
column is declared `unique=True` (server/main.py line 66), so when the email
duplicates an existing user's the commit raises `IntegrityError`, which no
code catches: the request fails with HTTP 500 and no row is stored.  Only
when both checks pass is the row stored and a bearer token returned whose
payload subject is the username. -/
def register (hash : String → String) (db : ServerDB) (u : UserCreate) :
    ServerDB × RegisterResult :=
  match db.users.find? (fun x => x.username == u.username) with
  | some _ => (db, .err 400)
  | none =>
      if (db.users.find? (fun x => x.email == u.email)).isSome then
        (db, .err 500)
      else
        let row : UserRow :=
          { id := db.nextUserId, username := u.username, email := u.email,
            hashed_password := hash u.password, user_type := u.user_type }
        ({ db with
            users := db.users ++ [row],
            nextUserId := db.nextUserId + 1 },
         .ok { payload := { sub := u.username, type := "access" },
               token_type := "bearer" })

/-! ## Server: vector upload endpoint -/

/-- The ownership query shared by `upload_vectors` and `download_vectors`:
`db.query(UserDB).filter(UserDB.id == user_id, UserDB.username == username).first()`. -/
def findOwner (db : ServerDB) (uid : Nat) (username : String) : Option UserRow :=
  db.users.find? (fun u => u.id == uid && u.username == username)

/-- One iteration of the insertion loop in `upload_vectors` (server/main.py
lines 158-165): build a `VectorDB` row from the submitted record and add it.
No duplicate check of any kind is performed. -/
def addVector (db : ServerDB) (uid : Nat) (v : VectorData) : ServerDB :=
  { db with
    vectors := db.vectors ++
      [{ id := db.nextVectorId, user_id := uid, device_id := v.device_id,
         timestamp := v.timestamp, data := vectorDict v,
         model_weights := none }],
    nextVectorId := db.nextVectorId + 1 }

/-- The `for vector in vectors` loop of `upload_vectors`. -/
def insertVectors (db : ServerDB) (uid : Nat) : List VectorData → ServerDB
  | [] => db
  | v :: rest => insertVectors (addVector db uid v) uid rest

inductive UploadResult where
  | err (code : Nat)
  | ok (status : String) (count : Nat)
deriving DecidableEq

/-- `POST /sync/{user_id}/vectors` (server/main.py lines 146-168): verify the
bearer token (401 on failure), look up a user whose id is the path's
`user_id` and whose username is the token subject, fail with 403 when there
is none or when `user_type != "premium"`, otherwise insert every submitted
record and answer `{"status": "synced", "count": len(vectors)}`. -/
def upload_vectors (db : ServerDB) (uid : Nat) (vecs : List VectorData)
    (tok : AuthToken) : ServerDB × UploadResult :=
  match verify_token tok with
  | .error c => (db, .err c)
  | .ok username =>
      match findOwner db uid username with
      | none => (db, .err 403)
      | some u =>
          if u.user_type = "premium" then
            (insertVectors db uid vecs, .ok "synced" vecs.length)
          else (db, .err 403)

/-! ## Server: vector download endpoint -/

/-- One element of the response of `GET /sync/{user_id}/vectors`
(server/main.py lines 186-191). -/
structure DownloadEntry where
  device_id : String
  timestamp : Nat
  data : VectorPayload
  model_weights : Option String
deriving DecidableEq

def entryOf (r : VectorRow) : DownloadEntry :=
  { device_id := r.device_id, timestamp := r.timestamp, data := r.data,
    model_weights := r.model_weights }

/-- The `order_by(VectorDB.timestamp.desc())` order: newest first. -/
def tsDesc (a b : VectorRow) : Prop := b.timestamp ≤ a.timestamp

instance : DecidableRel tsDesc := fun a b =>
  inferInstanceAs (Decidable (b.timestamp ≤ a.timestamp))

instance : IsTotal VectorRow tsDesc :=
  ⟨fun a b => Nat.le_total b.timestamp a.timestamp⟩

instance : IsTrans VectorRow tsDesc :=
  ⟨fun _ _ _ hab hbc => Nat.le_trans hbc hab⟩

/-- Default of the `limit` query parameter (server/main.py line 174). -/
def default_limit : Nat := 1000

inductive DownloadResult where
  | err (code : Nat)
  | ok (entries : List DownloadEntry)
deriving DecidableEq

/-- `GET /sync/{user_id}/vectors` (server/main.py lines 171-191): same token
and ownership/premium gate as the upload route; on success it returns the
user's vector rows ordered by timestamp descending, truncated to `limit`,
each projected to `{device_id, timestamp, data, model_weights}`. -/
def download_vectors (db : ServerDB) (uid : Nat) (limit : Nat)
    (tok : AuthToken) : DownloadResult :=
  match verify_token tok with
  | .error c => .err c
  | .ok username =>
      match findOwner db uid username with
      | none => .err 403
      | some u =>
          if u.user_type = "premium" then
            .ok ((((db.vectors.filter (fun r => r.user_id == uid)).insertionSort
              tsDesc).take limit).map entryOf)
          else .err 403

/-! ## Sample data used by witnesses and counterexamples -/

def recA : LocalRecord :=
  { id := 1, timestamp := "2024-01-01T00:00:00", heart_rate := some 70,
    stress_level := some 1, model_version := "v1.0" }

def recB : LocalRecord :=
  { id := 2, timestamp := "2024-01-01T00:00:02", heart_rate := some 80,
    stress_level := some 2, model_version := "v1.0" }

/-- A logged-in premium client holding one pending row. -/
def premiumState : ClientState :=
  { store := [recA], nextId := 3, is_premium := true, user_id := some 1 }

/-- A free-tier client holding one pending row. -/
def freeState : ClientState :=
  { store := [recA], nextId := 3, is_premium := false, user_id := none }

def alice : UserRow :=
  { id := 1, username := "alice", email := "alice@example.com",
    hashed_password := "$2b$12$abc", user_type := "premium" }

def bob : UserRow :=
  { id := 2, username := "bob", email := "bob@example.com",
    hashed_password := "$2b$12$def", user_type := "free" }

def sampleDB : ServerDB :=
  { users := [alice, bob], vectors := [], nextUserId := 3, nextVectorId := 1 }

def aliceTok : AuthToken := .valid (some "alice")

def bobTok : AuthToken := .valid (some "bob")

def vec1 : VectorData :=
  { device_id := "dev1", timestamp := 100, heart_rate := some 70, hrv := none,
    accel_x := 1, accel_y := 2, accel_z := 3, temperature := none,
    stress_level := some 1, model_weights := none }

def vec2 : VectorData :=
  { device_id := "dev1", timestamp := 200, heart_rate := some 80, hrv := none,
    accel_x := 4, accel_y := 5, accel_z := 6, temperature := none,
    stress_level := some 2, model_weights := none }

/-- A stored vector row of `alice`, as `upload_vectors` would create it. -/
def rowX : VectorRow :=
  { id := 1, user_id := 1, device_id := "dev1", timestamp := 100,
    data := vectorDict vec1, model_weights := none }

def rowY : VectorRow :=
  { id := 2, user_id := 1, device_id := "dev1", timestamp := 200,
    data := vectorDict vec2, model_weights := none }

/-- A server database already holding two of alice's vector rows. -/
def vecDB : ServerDB :=
  { users := [alice, bob], vectors := [rowX, rowY], nextUserId := 3,
    nextVectorId := 3 }

/-- A stand-in for the external bcrypt hash in concrete witnesses: it has
bcrypt's prefixed output shape, so it never returns its input. -/
def bcryptLike (p : String) : String := "$2b$12$" ++ p

/-- A registration request clashing with the existing username `alice`. -/
def aliceCreate : UserCreate :=
  { username := "alice", email := "alice2@example.com", password := "pw1",
    user_type := "free" }

/-- A registration request with a fresh username. -/
def carolCreate : UserCreate :=
  { username := "carol", email := "carol@example.com", password := "pw2",
    user_type := "premium" }

/-! ## Claims about the client sync operation -/

/-- C1 counterexample: a premium client holds the single row `recA`; the
batch read and submitted is `[recA]`, then `recB` is appended to
`local_vectors` before the 200 response is processed.  The
`DELETE FROM local_vectors` wipes the whole table: `recB`, which is not in
the submitted batch, is also removed (final store is empty), refuting
"exactly the records of that submitted batch, and no other record". -/
theorem sync_ack_deletes_appended_row :
    (sync_data premiumState SyncResponse.ok [recB]).requests
        = [(some 1, [toVectorOut recA])] ∧
    recB ≠ recA ∧
    (sync_data premiumState SyncResponse.ok [recB]).store = [] := by
  decide

/-- C1 amended: when the server acknowledges with HTTP 200 and no row was
appended between the batch read and the delete, `sync_data` removes exactly
the rows of the submitted batch (which is the entire table at read time) and
no other row; if rows were appended in between, the unconditional
`DELETE FROM local_vectors` removes them as well. -/
theorem sync_ack_removes_exactly_batch (st : ClientState)
    (appended : List LocalRecord) (h : st.is_premium = true) :
    (sync_data st SyncResponse.ok appended).requests
        = [(st.user_id, st.store.map toVectorOut)] ∧
    (sync_data st SyncResponse.ok []).store = [] ∧
    (sync_data st SyncResponse.ok appended).store = [] := by
  simp [sync_data, h]

theorem sync_ack_removes_exactly_batch_witness :
    (sync_data premiumState SyncResponse.ok []).requests
        = [(premiumState.user_id, premiumState.store.map toVectorOut)] ∧
    (sync_data premiumState SyncResponse.ok []).store = [] ∧
    (sync_data premiumState SyncResponse.ok []).store = [] :=
  sync_ack_removes_exactly_batch premiumState [] rfl

/-- C2: for every client state with `is_premium = false`, `sync_data` takes
the not-authorized branch ("Sync requires Premium account" notification),
issues no network request, and leaves `local_vectors` unchanged — whatever
response the network would have produced. -/
theorem sync_entitlement_gate (st : ClientState) (resp : SyncResponse)
    (appended : List LocalRecord) (h : st.is_premium = false) :
    (sync_data st resp appended).result = SyncResult.notAuthorized ∧
    (sync_data st resp appended).requests = [] ∧
    (sync_data st resp appended).store = st.store := by
  simp [sync_data, h]

theorem sync_entitlement_gate_witness :
    (sync_data freeState SyncResponse.ok []).result
        = SyncResult.notAuthorized ∧
    (sync_data freeState SyncResponse.ok []).requests = [] ∧
    (sync_data freeState SyncResponse.ok []).store = freeState.store :=
  sync_entitlement_gate freeState SyncResponse.ok [] rfl

/-- C3: if the submission fails at transport level (exception) or with a
non-200 status, `sync_data` performs no state change on `local_vectors`: the
rows after the failed call are exactly the rows before it (plus any rows a
concurrent insert appended, none of which is removed). -/
theorem sync_failure_no_state_change (st : ClientState) (resp : SyncResponse)
    (appended : List LocalRecord) (hp : st.is_premium = true)
    (hfail : resp ≠ SyncResponse.ok) :
    (sync_data st resp []).store = st.store ∧
    (sync_data st resp appended).store = st.store ++ appended := by
  cases resp with
  | ok => exact absurd rfl hfail
  | httpError c t => simp [sync_data, hp]
  | exn m => simp [sync_data, hp]

theorem sync_failure_no_state_change_witness :
    (sync_data premiumState (SyncResponse.exn "connection refused") []).store
        = premiumState.store ∧
    (sync_data premiumState (SyncResponse.exn "connection refused") []).store
        = premiumState.store ++ [] :=
  sync_failure_no_state_change premiumState (SyncResponse.exn
    "connection refused") [] rfl (by decide)

/-- C4 counterexample: the schema created by `setup_local_db` has the
columns `(id, timestamp, heart_rate, stress_level, model_version)`; it has
no `sync_state` column and no `captured_at` column, refuting the claimed
table layout. -/
theorem local_vectors_has_no_sync_state_column :
    local_vectors_columns
        = ["id", "timestamp", "heart_rate", "stress_level", "model_version"] ∧
    "sync_state" ∉ local_vectors_columns ∧
    "captured_at" ∉ local_vectors_columns := by
  decide

/-- C4 amended: the `local_vectors` table has columns exactly
`(id, timestamp, heart_rate, stress_level, model_version)` and no
`sync_state` column.  A record is created by `read_sensors` as one new row
(implicitly pending: `sync_data` submits every row of the table), and upon
server acknowledgment the row is deleted rather than marked Synced, so a
record leaves the pending set at most once and never returns to it. -/
theorem local_store_schema_and_lifecycle (st : ClientState) (ts : String)
    (hr stress : Int) (h : st.is_premium = true) :
    local_vectors_columns
        = ["id", "timestamp", "heart_rate", "stress_level", "model_version"] ∧
    (read_sensors st ts hr stress).store
        = st.store ++
          [{ id := st.nextId, timestamp := ts, heart_rate := some hr,
             stress_level := some stress, model_version := "v1.0" }] ∧
    (sync_data st SyncResponse.ok []).store = [] := by
  refine ⟨rfl, rfl, ?_⟩
  simp [sync_data, h]

theorem local_store_schema_and_lifecycle_witness :
    local_vectors_columns
        = ["id", "timestamp", "heart_rate", "stress_level", "model_version"] ∧
    (read_sensors premiumState "2024-01-01T00:00:04" 75 0).store
        = premiumState.store ++
          [{ id := premiumState.nextId, timestamp := "2024-01-01T00:00:04",
             heart_rate := some 75, stress_level := some 0,
             model_version := "v1.0" }] ∧
    (sync_data premiumState SyncResponse.ok []).store = [] :=
  local_store_schema_and_lifecycle premiumState "2024-01-01T00:00:04" 75 0 rfl

/-! ## Helper lemmas about the server endpoints -/

/-- The composite key the spec designates as the dedup key, for a stored row. -/
def rowKey (r : VectorRow) : String × Nat := (r.device_id, r.timestamp)

/-- The same composite key for a submitted record. -/
def vecKey (v : VectorData) : String × Nat := (v.device_id, v.timestamp)

theorem insertVectors_users (db : ServerDB) (uid : Nat)
    (vs : List VectorData) : (insertVectors db uid vs).users = db.users := by
  induction vs generalizing db with
  | nil => rfl
  | cons v rest ih => simpa [insertVectors, addVector] using ih (addVector db uid v)

theorem insertVectors_keys (db : ServerDB) (uid : Nat) (vs : List VectorData) :
    (insertVectors db uid vs).vectors.map rowKey
      = db.vectors.map rowKey ++ vs.map vecKey := by
  induction vs generalizing db with
  | nil => simp [insertVectors]
  | cons v rest ih =>
      show (insertVectors (addVector db uid v) uid rest).vectors.map rowKey = _
      rw [ih (addVector db uid v)]
      simp [addVector, rowKey, vecKey]

theorem upload_premium_eq (db : ServerDB) (uid : Nat) (vecs : List VectorData)
    (tok : AuthToken) (sub : String) (u : UserRow)
    (htok : verify_token tok = Except.ok sub)
    (hown : findOwner db uid sub = some u)
    (hprem : u.user_type = "premium") :
    upload_vectors db uid vecs tok
      = (insertVectors db uid vecs, UploadResult.ok "synced" vecs.length) := by
  simp [upload_vectors, htok, hown, hprem]

theorem upload_not_premium_eq (db : ServerDB) (uid : Nat)
    (vecs : List VectorData) (tok : AuthToken) (sub : String) (u : UserRow)
    (htok : verify_token tok = Except.ok sub)
    (hown : findOwner db uid sub = some u)
    (hprem : u.user_type ≠ "premium") :
    upload_vectors db uid vecs tok = (db, UploadResult.err 403) := by
  simp [upload_vectors, htok, hown, hprem]

theorem upload_owner_none_eq (db : ServerDB) (uid : Nat)
    (vecs : List VectorData) (tok : AuthToken) (sub : String)
    (htok : verify_token tok = Except.ok sub)
    (hown : findOwner db uid sub = none) :
    upload_vectors db uid vecs tok = (db, UploadResult.err 403) := by
  simp [upload_vectors, htok, hown]

theorem upload_bad_token_eq (db : ServerDB) (uid : Nat)
    (vecs : List VectorData) (tok : AuthToken)
    (htok : verify_token tok = Except.error 401) :
    upload_vectors db uid vecs tok = (db, UploadResult.err 401) := by
  simp [upload_vectors, htok]

theorem download_premium_eq (db : ServerDB) (uid limit : Nat)
    (tok : AuthToken) (sub : String) (u : UserRow)
    (htok : verify_token tok = Except.ok sub)
    (hown : findOwner db uid sub = some u)
    (hprem : u.user_type = "premium") :
    download_vectors db uid limit tok
      = DownloadResult.ok ((((db.vectors.filter
          (fun r => r.user_id == uid)).insertionSort tsDesc).take limit).map
            entryOf) := by
  simp [download_vectors, htok, hown, hprem]

/-! ## Claims about the server endpoints -/

/-- C5 counterexample: against `sampleDB` (premium owner `alice`, empty
vector table), submitting the batch `[vec1]` twice stores two rows, both
with the composite key `("dev1", 100)`: the stored set of vectors after the
second submission differs from the set after the first, refuting the claimed
server-side `(device_id, timestamp)` deduplication. -/
theorem upload_twice_duplicates :
    (upload_vectors sampleDB 1 [vec1] aliceTok).1.vectors.length = 1 ∧
    (upload_vectors (upload_vectors sampleDB 1 [vec1] aliceTok).1 1 [vec1]
        aliceTok).1.vectors.length = 2 ∧
    ((upload_vectors (upload_vectors sampleDB 1 [vec1] aliceTok).1 1 [vec1]
        aliceTok).1.vectors.filter
          (fun r => r.device_id == "dev1" && r.timestamp == 100)).length
      = 2 := by
  decide

/-- C5 amended: `upload_vectors` performs no deduplication at all — each
accepted submission appends one fresh row per submitted record regardless of
existing rows, so submitting the same batch twice stores the batch's
composite keys `(device_id, timestamp)` twice over. -/
theorem upload_no_dedup (db : ServerDB) (uid : Nat) (vecs : List VectorData)
    (tok : AuthToken) (sub : String) (u : UserRow)
    (htok : verify_token tok = Except.ok sub)
    (hown : findOwner db uid sub = some u)
    (hprem : u.user_type = "premium") :
    (upload_vectors db uid vecs tok).1.vectors.map rowKey
        = db.vectors.map rowKey ++ vecs.map vecKey ∧
    (upload_vectors (upload_vectors db uid vecs tok).1 uid vecs
        tok).1.vectors.map rowKey
      = (db.vectors.map rowKey ++ vecs.map vecKey) ++ vecs.map vecKey := by
  have h1 := upload_premium_eq db uid vecs tok sub u htok hown hprem
  have hown2 : findOwner (insertVectors db uid vecs) uid sub = some u := by
    simpa [findOwner, insertVectors_users] using hown
  have h2 := upload_premium_eq (insertVectors db uid vecs) uid vecs tok sub u
    htok hown2 hprem
  refine ⟨by rw [h1]; exact insertVectors_keys db uid vecs, ?_⟩
  rw [h1, h2]
  rw [insertVectors_keys, insertVectors_keys]

theorem upload_no_dedup_witness :
    (upload_vectors sampleDB 1 [vec1] aliceTok).1.vectors.map rowKey
        = sampleDB.vectors.map rowKey ++ [vec1].map vecKey ∧
    (upload_vectors (upload_vectors sampleDB 1 [vec1] aliceTok).1 1 [vec1]
        aliceTok).1.vectors.map rowKey
      = (sampleDB.vectors.map rowKey ++ [vec1].map vecKey)
          ++ [vec1].map vecKey :=
  upload_no_dedup sampleDB 1 [vec1] aliceTok "alice" alice rfl (by decide) rfl

/-- C6 counterexample: the server registers no `POST /auth/login` route
(its routes are `/auth/register`, `/users/me`, and the two vector routes),
so the login operation the claim describes does not exist on this server. -/
theorem login_route_absent :
    (HttpMethod.post, client_login_path) ∉ server_routes := by
  decide

/-- C6 amended: the server registers no `POST /auth/login` route — its only
authentication route is `POST /auth/register` — so the login call that
`APIClient.login` issues targets a path with no handler and cannot succeed
against this server. -/
theorem auth_routes_contract :
    (HttpMethod.post, client_login_path) ∉ server_routes ∧
    (HttpMethod.post, "/auth/register") ∈ server_routes ∧
    server_routes.filter (fun r => r.1 == HttpMethod.post)
      = [(HttpMethod.post, "/auth/register"),
         (HttpMethod.post, "/sync/{user_id}/vectors")] := by
  decide

/-- C7: the upload route's full contract.  An invalid bearer token fails
with 401 and stores nothing; a valid token whose matching user is not
premium fails with 403 and stores nothing; a valid premium owner gets every
submitted record stored and the answer `{"status": "synced", "count": n}`
with `n` the number of submitted records. -/
theorem upload_contract (db : ServerDB) (uid : Nat) (vecs : List VectorData)
    (tok : AuthToken) :
    (verify_token tok = Except.error 401 →
        upload_vectors db uid vecs tok = (db, UploadResult.err 401)) ∧
    (∀ sub u, verify_token tok = Except.ok sub →
        findOwner db uid sub = some u → u.user_type ≠ "premium" →
        upload_vectors db uid vecs tok = (db, UploadResult.err 403)) ∧
    (∀ sub u, verify_token tok = Except.ok sub →
        findOwner db uid sub = some u → u.user_type = "premium" →
        upload_vectors db uid vecs tok
          = (insertVectors db uid vecs,
             UploadResult.ok "synced" vecs.length)) := by
  refine ⟨fun h => upload_bad_token_eq db uid vecs tok h,
    fun sub u htok hown hprem =>
      upload_not_premium_eq db uid vecs tok sub u htok hown hprem,
    fun sub u htok hown hprem =>
      upload_premium_eq db uid vecs tok sub u htok hown hprem⟩

theorem upload_contract_witness :
    upload_vectors sampleDB 1 [vec1] AuthToken.invalid
        = (sampleDB, UploadResult.err 401) ∧
    upload_vectors sampleDB 2 [vec1] bobTok
        = (sampleDB, UploadResult.err 403) ∧
    upload_vectors sampleDB 1 [vec1] aliceTok
        = (insertVectors sampleDB 1 [vec1], UploadResult.ok "synced" 1) :=
  ⟨(upload_contract sampleDB 1 [vec1] AuthToken.invalid).1 rfl,
   (upload_contract sampleDB 2 [vec1] bobTok).2.1 "bob" bob rfl (by decide)
     (by decide),
   (upload_contract sampleDB 1 [vec1] aliceTok).2.2 "alice" alice rfl
     (by decide) rfl⟩

/-- C8: ownership gate.  With a valid token whose subject matches no user
row with the path's `user_id`, both vector endpoints fail with 403: the
upload stores nothing and the download returns nothing — a premium user
cannot touch another user's `user_id`. -/
theorem ownership_gate (db : ServerDB) (uid : Nat) (vecs : List VectorData)
    (limit : Nat) (tok : AuthToken) (sub : String)
    (htok : verify_token tok = Except.ok sub)
    (hnone : findOwner db uid sub = none) :
    upload_vectors db uid vecs tok = (db, UploadResult.err 403) ∧
    download_vectors db uid limit tok = DownloadResult.err 403 := by
  refine ⟨upload_owner_none_eq db uid vecs tok sub htok hnone, ?_⟩
  simp [download_vectors, htok, hnone]

theorem ownership_gate_witness :
    upload_vectors sampleDB 2 [vec1] aliceTok
        = (sampleDB, UploadResult.err 403) ∧
    download_vectors sampleDB 2 5 aliceTok = DownloadResult.err 403 :=
  ownership_gate sampleDB 2 [vec1] 5 aliceTok "alice" rfl (by decide)

/-- C9: for every valid premium owner request, the download route answers
with at most `limit` entries (the query parameter's default being 1000),
every returned entry is the projection of a stored row of that `user_id`,
and entries are ordered newest timestamp first. -/
theorem download_contract (db : ServerDB) (uid limit : Nat) (tok : AuthToken)
    (sub : String) (u : UserRow)
    (htok : verify_token tok = Except.ok sub)
    (hown : findOwner db uid sub = some u)
    (hprem : u.user_type = "premium") :
    default_limit = 1000 ∧
    ∃ entries, download_vectors db uid limit tok = DownloadResult.ok entries ∧
      entries.length ≤ limit ∧
      (∀ e ∈ entries, ∃ r ∈ db.vectors, r.user_id = uid ∧ e = entryOf r) ∧
      entries.Pairwise (fun a b => b.timestamp ≤ a.timestamp) := by
  refine ⟨rfl, _,
    download_premium_eq db uid limit tok sub u htok hown hprem, ?_, ?_, ?_⟩
  · rw [List.length_map, List.length_take]
    exact min_le_left _ _
  · intro e he
    obtain ⟨r, hr, hre⟩ := List.mem_map.mp he
    have hr1 : r ∈ (db.vectors.filter
        (fun r => r.user_id == uid)).insertionSort tsDesc :=
      List.mem_of_mem_take hr
    have hr2 : r ∈ db.vectors.filter (fun r => r.user_id == uid) :=
      ((List.perm_insertionSort tsDesc _).mem_iff).mp hr1
    have hr3 := List.mem_filter.mp hr2
    exact ⟨r, hr3.1, by simpa using hr3.2, hre.symm⟩
  · have hs : ((db.vectors.filter
        (fun r => r.user_id == uid)).insertionSort tsDesc).Pairwise tsDesc :=
      List.sorted_insertionSort tsDesc _
    have ht : (((db.vectors.filter
        (fun r => r.user_id == uid)).insertionSort tsDesc).take
          limit).Pairwise tsDesc :=
      hs.sublist (List.take_sublist _ _)
    exact List.pairwise_map.mpr ht

theorem download_contract_witness :
    default_limit = 1000 ∧
    ∃ entries, download_vectors vecDB 1 1 aliceTok = DownloadResult.ok entries ∧
      entries.length ≤ 1 ∧
      (∀ e ∈ entries, ∃ r ∈ vecDB.vectors, r.user_id = 1 ∧ e = entryOf r) ∧
      entries.Pairwise (fun a b => b.timestamp ≤ a.timestamp) :=
  download_contract vecDB 1 1 aliceTok "alice" alice rfl (by decide) rfl

/-- C10: registration contract of `POST /auth/register`.  A duplicate
username fails with 400 and leaves the users table untouched; in fact every
failing outcome (the explicit 400 and the 500 raised by the `users.email`
unique constraint at commit) leaves the database unchanged.  A successful
registration — one whose result is a token — stores exactly one new user
row, whose password field is the bcrypt hash of the submitted password
(hence not the plaintext whenever the hash moves its input, which bcrypt's
`$2b$`-prefixed output guarantees), and the token's subject is the
registered username. -/
theorem register_contract (hash : String → String) (db : ServerDB)
    (u : UserCreate) :
    ((db.users.find? (fun x => x.username == u.username)).isSome = true →
        register hash db u = (db, RegisterResult.err 400)) ∧
    (∀ c, (register hash db u).2 = RegisterResult.err c →
        (register hash db u).1 = db) ∧
    (∀ t, (register hash db u).2 = RegisterResult.ok t →
        (register hash db u).1.users
            = db.users ++
              [{ id := db.nextUserId, username := u.username,
                 email := u.email, hashed_password := hash u.password,
                 user_type := u.user_type }] ∧
        (hash u.password ≠ u.password →
            ∀ r ∈ (register hash db u).1.users, r ∉ db.users →
              r.hashed_password ≠ u.password) ∧
        t = { payload := { sub := u.username, type := "access" },
              token_type := "bearer" }) := by
  rcases hfind : db.users.find? (fun x => x.username == u.username) with _ | w
  · by_cases hmail :
        (db.users.find? (fun x => x.email == u.email)).isSome = true
    · have hreg : register hash db u = (db, RegisterResult.err 500) := by
        simp [register, hfind, hmail]
      refine ⟨?_, ?_, ?_⟩
      · intro h
        rw [hfind] at h
        simp at h
      · intro c _
        rw [hreg]
      · intro t ht
        rw [hreg] at ht
        simp at ht
    · have hmail2 : (db.users.find? (fun x => x.email == u.email)).isSome
          = false := by
        simpa using hmail
      have husers : (register hash db u).1.users
          = db.users ++
            [{ id := db.nextUserId, username := u.username, email := u.email,
               hashed_password := hash u.password,
               user_type := u.user_type }] := by
        simp [register, hfind, hmail2]
      have hres : (register hash db u).2
          = RegisterResult.ok
              { payload := { sub := u.username, type := "access" },
                token_type := "bearer" } := by
        simp [register, hfind, hmail2]
      refine ⟨?_, ?_, ?_⟩
      · intro h
        rw [hfind] at h
        simp at h
      · intro c hc
        rw [hres] at hc
        simp at hc
      · intro t ht
        rw [hres] at ht
        refine ⟨husers, ?_, by simpa using ht.symm⟩
        intro hne r hr hrnot
        rw [husers] at hr
        rcases List.mem_append.mp hr with h1 | h1
        · exact absurd h1 hrnot
        · rw [List.mem_singleton.mp h1]
          exact hne
  · have hreg : register hash db u = (db, RegisterResult.err 400) := by
      simp [register, hfind]
    refine ⟨fun _ => hreg, ?_, ?_⟩
    · intro c _
      rw [hreg]
    · intro t ht
      rw [hreg] at ht
      simp at ht

theorem register_contract_witness :
    register bcryptLike sampleDB aliceCreate
        = (sampleDB, RegisterResult.err 400) ∧
    (register bcryptLike sampleDB aliceCreate).1 = sampleDB ∧
    (register bcryptLike sampleDB carolCreate).1.users
        = sampleDB.users ++
          [{ id := sampleDB.nextUserId, username := carolCreate.username,
             email := carolCreate.email,
             hashed_password := bcryptLike carolCreate.password,
             user_type := carolCreate.user_type }] ∧
    (∀ r ∈ (register bcryptLike sampleDB carolCreate).1.users,
        r ∉ sampleDB.users → r.hashed_password ≠ carolCreate.password) :=
  ⟨(register_contract bcryptLike sampleDB aliceCreate).1 rfl,
   (register_contract bcryptLike sampleDB aliceCreate).2.1 400 (by decide),
   ((register_contract bcryptLike sampleDB carolCreate).2.2
       { payload := { sub := "carol", type := "access" },
         token_type := "bearer" } (by decide)).1,
   ((register_contract bcryptLike sampleDB carolCreate).2.2
       { payload := { sub := "carol", type := "access" },
         token_type := "bearer" } (by decide)).2.1 (by decide)⟩

end HealthMonitor
